import Mathlib

/-!
Shallow embedding of the core of `src/src-tauri/src/lib.rs` (ssh-thing):
the host-key trust workflow (`check_server_key`, `trust_host_key`,
`reject_host_key`), the credential migration (`migrate_server_auth` and the
migration loop of `load_servers`), the session/shell registries as used by
`connect` and `disconnect`, and the shell actor event loop spawned by
`open_pty_shell`.

Rust `HashMap`s are embedded as association lists with first-match lookup;
`insert` replaces any existing entry for the key, `remove` deletes it, which
matches `HashMap` observable semantics.  A tokio `oneshot` channel is
identified by a `Nat` tag so that two distinct channels can be told apart.
External effects (tauri `emit`, keyring, the filesystem) are made explicit:
emitted signals are returned as data, the keyring vault is an explicit map
threaded through, and fallible loads (`get_app_dir`, `load_known_hosts`) are
parameters of type `Except String _` holding the collaborator's outcome.
-/

deriving instance DecidableEq for Except

/-- `ConnectionState` from lib.rs. -/
inductive ConnectionState where
  | Connecting
  | Connected
  | Disconnected
  | Error (message : String)
deriving DecidableEq, Repr

/-- `ConnectionStateEvent` from lib.rs: the payload of a `connection-state` signal. -/
structure ConnectionStateEvent where
  server_id : Option String
  shell_id : Option String
  state : ConnectionState
deriving DecidableEq, Repr

/-- `KnownHost` from lib.rs. Ports are `u16` in Rust; only equality on them
matters here, so they are embedded as `Nat`. `added_at` is a `u64` Unix time. -/
structure KnownHost where
  host : String
  port : Nat
  key_type : String
  fingerprint : String
  public_key_base64 : String
  added_at : Nat
deriving DecidableEq, Repr

/-- `HostKeyPrompt` from lib.rs: the payload of a `host-key-prompt` signal. -/
structure HostKeyPrompt where
  host : String
  port : Nat
  key_type : String
  fingerprint : String
  public_key_base64 : String
deriving DecidableEq, Repr

/-- `HostKeyMismatch` from lib.rs: the payload of a `host-key-mismatch` signal. -/
structure HostKeyMismatch where
  host : String
  port : Nat
  key_type : String
  fingerprint : String
  stored_fingerprint : String
deriving DecidableEq, Repr

/-- `SecretKind` from lib.rs. -/
inductive SecretKind where
  | Password
  | PrivateKey
deriving DecidableEq, Repr

/-- `AuthMethod` from lib.rs: `SecretRef` plus the two legacy inline shapes. -/
inductive AuthMethod where
  | SecretRef (secret_id : String) (kind : SecretKind)
  | Password (password : String)
  | Key (private_key : String)
deriving DecidableEq, Repr

/-- True exactly on the `SecretRef` variant. -/
def AuthMethod.isSecretRef : AuthMethod → Bool
  | .SecretRef _ _ => true
  | _ => false

/-- `ServerConnection` from lib.rs. -/
structure ServerConnection where
  id : String
  nickname : Option String
  host : String
  port : Nat
  user : String
  auth : AuthMethod
deriving DecidableEq, Repr

/-- `TerminalOutput` from lib.rs: the payload of a `terminal-output` signal. -/
structure TerminalOutput where
  shell_id : String
  output : String
deriving DecidableEq, Repr

/-- `PendingHostKey` from lib.rs. The `oneshot::Sender<bool>` is embedded as a
`Nat` tag identifying the channel, so that the channel created by one
handshake can be distinguished from the channel created by another. -/
structure PendingHostKey where
  sender : Nat
  key_type : String
  fingerprint : String
  public_key_base64 : String
deriving DecidableEq, Repr

/-- The `pending_host_keys : HashMap<String, PendingHostKey>` field of
`AppState`, as an association list with first-match lookup. -/
abbrev PendingMap := List (String × PendingHostKey)

/-- `HashMap::insert` semantics: the new binding shadows and drops any
existing binding for the same key. -/
def mapInsert {β : Type} (m : List (String × β)) (k : String) (v : β) :
    List (String × β) :=
  (k, v) :: m.filter (fun p => !(p.1 == k))

/-- `HashMap::remove` semantics (the removed value, if any, is obtained
separately via `List.lookup`). -/
def mapRemove {β : Type} (m : List (String × β)) (k : String) :
    List (String × β) :=
  m.filter (fun p => !(p.1 == k))

/-- `format!("{}:{}", host, port)`: the key of the pending-host-keys map. -/
def hostKeyId (host : String) (port : Nat) : String :=
  host ++ ":" ++ toString port

/-- The keyring vault, keyed by `secret_id`.  The platform credential store is
an external collaborator; its success path is embedded as a map update. -/
abbrev Vault := List (String × String)

/-- `put_secret` from lib.rs: `Entry::set_password` overwrites the entry. -/
def put_secret (vault : Vault) (secret_id : String) (secret : String) : Vault :=
  mapInsert vault secret_id secret

/-- `get_secret` from lib.rs: `Entry::get_password`, failing when the entry
is absent. -/
def get_secret (vault : Vault) (secret_id : String) : Except String String :=
  match vault.lookup secret_id with
  | some s => Except.ok s
  | none => Except.error ("keyring get failed: no entry for " ++ secret_id)

/-- `migrate_server_auth` from lib.rs (lines 308-330): a `SecretRef` auth is
left untouched; a legacy `Password`/`Key` auth has its plaintext stored in the
vault under `server:<id>:password` / `server:<id>:private_key` and is rewritten
in place to the matching `SecretRef`. -/
def migrate_server_auth (vault : Vault) (server : ServerConnection) :
    Vault × ServerConnection :=
  match server.auth with
  | AuthMethod.SecretRef _ _ => (vault, server)
  | AuthMethod.Password password =>
    let secret_id := "server:" ++ server.id ++ ":password"
    (put_secret vault secret_id password,
     { server with auth := AuthMethod.SecretRef secret_id SecretKind.Password })
  | AuthMethod.Key private_key =>
    let secret_id := "server:" ++ server.id ++ ":private_key"
    (put_secret vault secret_id private_key,
     { server with auth := AuthMethod.SecretRef secret_id SecretKind.PrivateKey })

/-- The outcome of `check_server_key` (lib.rs lines 189-265) up to the point
where it either returns or suspends on `rx.await`.
* `denyError msg`: a store read failed; a `connection-state` signal with
  `ConnectionState.Error msg` was emitted and the function returns `Ok(false)`.
* `grant`: the stored entry matches; the function returns `Ok(true)`.
* `denyMismatch m`: a stored entry differs; a `host-key-mismatch` signal `m`
  was emitted and the function returns `Ok(false)`.
* `waiting prompt pm`: no stored entry; a fresh `PendingHostKey` was inserted
  into the pending map (yielding `pm`), a `host-key-prompt` signal `prompt`
  was emitted, and the handshake task is now suspended on the prompt's
  oneshot receiver. -/
inductive CheckPhase1Result where
  | denyError (msg : String)
  | grant
  | denyMismatch (m : HostKeyMismatch)
  | waiting (prompt : HostKeyPrompt) (pm : PendingMap)
deriving DecidableEq, Repr

/-- `check_server_key` (lib.rs lines 189-265) up to `rx.await`.  `key_type`,
`fingerprint`, `public_key_base64` are the values computed from the presented
server public key.  `app_dir` is the outcome of `get_app_dir` (the path itself
is irrelevant to the trust logic) and `known_hosts` the outcome of
`load_known_hosts`.  `pm` is the current pending-host-keys map and `freshChan`
the tag of the oneshot channel created by `oneshot::channel()` on the prompt
path. -/
def check_server_key_phase1 (host : String) (port : Nat)
    (key_type fingerprint public_key_base64 : String)
    (app_dir : Except String Unit)
    (known_hosts : Except String (List KnownHost))
    (pm : PendingMap) (freshChan : Nat) : CheckPhase1Result :=
  match app_dir with
  | Except.error err => CheckPhase1Result.denyError err
  | Except.ok _ =>
    match known_hosts with
    | Except.error err => CheckPhase1Result.denyError err
    | Except.ok hosts =>
      match hosts.find? (fun entry => entry.host == host && entry.port == port) with
      | some known =>
        if known.fingerprint == fingerprint && known.key_type == key_type then
          CheckPhase1Result.grant
        else
          CheckPhase1Result.denyMismatch
            ⟨host, port, key_type, fingerprint, known.fingerprint⟩
      | none =>
        let pending : PendingHostKey :=
          ⟨freshChan, key_type, fingerprint, public_key_base64⟩
        CheckPhase1Result.waiting
          ⟨host, port, key_type, fingerprint, public_key_base64⟩
          (mapInsert pm (hostKeyId host port) pending)

/-- `check_server_key` after `rx.await` (lib.rs lines 258-264): `decision` is
`some b` when a value was sent on the oneshot channel and `none` when the
sender was dropped (`rx.await.unwrap_or(false)`); the pending entry for this
endpoint is removed and the decision is the returned trust verdict. -/
def check_server_key_phase2 (host : String) (port : Nat)
    (decision : Option Bool) (pm : PendingMap) : Bool × PendingMap :=
  (decision.getD false, mapRemove pm (hostKeyId host port))

/-- The trust verdict `check_server_key` returns from a phase-1 result, when
it returns without suspending (`none` = it suspends on the decision channel). -/
def phase1ReturnsTrust : CheckPhase1Result → Option Bool
  | CheckPhase1Result.denyError _ => some false
  | CheckPhase1Result.grant => some true
  | CheckPhase1Result.denyMismatch _ => some false
  | CheckPhase1Result.waiting _ _ => none

/-- The `host-key-prompt` signal emitted during phase 1, if any. -/
def phase1Prompt : CheckPhase1Result → Option HostKeyPrompt
  | CheckPhase1Result.waiting p _ => some p
  | _ => none

/-- The `host-key-mismatch` signal emitted during phase 1, if any. -/
def phase1Mismatch : CheckPhase1Result → Option HostKeyMismatch
  | CheckPhase1Result.denyMismatch m => some m
  | _ => none

/-- The message of the `ConnectionState.Error` signal emitted during
phase 1, if any. -/
def phase1ErrorEvent : CheckPhase1Result → Option String
  | CheckPhase1Result.denyError msg => some msg
  | _ => none

/-- The pending-host-keys map after phase 1 ran starting from `pm`: only the
prompt path mutates it. -/
def phase1PendingAfter (pm : PendingMap) : CheckPhase1Result → PendingMap
  | CheckPhase1Result.waiting _ pm2 => pm2
  | _ => pm

/-- The successful outcome of `trust_host_key`: the pending map and the
known-hosts list after the call, and the decision `(channel, value)` sent on
the pending prompt's oneshot channel. -/
structure TrustOutcome where
  pending_after : PendingMap
  known_hosts_after : List KnownHost
  decision_sent : Option (Nat × Bool)
deriving DecidableEq, Repr

/-- `trust_host_key` (lib.rs lines 62-93): remove the pending entry for
`host:port`; if none existed, fail with "No pending host key prompt" before
touching the known-hosts store; otherwise send `true` on its channel, drop any
stored entry for `(host, port)` and append a fresh `KnownHost` carrying the
pending prompt's `key_type`/`fingerprint`/`public_key_base64` with `added_at`
set to the current Unix time `now`. -/
def trust_host_key (pm : PendingMap) (hosts : List KnownHost)
    (host : String) (port : Nat) (now : Nat) : Except String TrustOutcome :=
  let host_key_id := hostKeyId host port
  match pm.lookup host_key_id with
  | none => Except.error "No pending host key prompt"
  | some pending =>
    let kept := hosts.filter (fun h => !(h.host == host && h.port == port))
    Except.ok
      ⟨mapRemove pm host_key_id,
       kept ++ [⟨host, port, pending.key_type, pending.fingerprint,
                 pending.public_key_base64, now⟩],
       some (pending.sender, true)⟩

/-- `reject_host_key` (lib.rs lines 96-110): remove the pending entry for
`host:port` and, when one existed, send `false` on its channel; the function
returns `Ok(())` in both cases and never touches the known-hosts store. -/
def reject_host_key (pm : PendingMap) (host : String) (port : Nat) :
    Except String (PendingMap × Option (Nat × Bool)) :=
  let host_key_id := hostKeyId host port
  match pm.lookup host_key_id with
  | none => Except.ok (pm, none)
  | some pending =>
    Except.ok (mapRemove pm host_key_id, some (pending.sender, false))

/-- The argument tuple `connect` builds for `connect_ssh` (lib.rs lines
1362-1366): `connect_ssh(&app, &server.host, server.port, &server.user,
&server.auth, Some(&server.id))`.  No call to `migrate_server_auth` precedes
it in `connect`; the auth is forwarded exactly as received. -/
structure ConnectSshArgs where
  host : String
  port : Nat
  user : String
  auth : AuthMethod
  server_id : Option String
deriving DecidableEq, Repr

/-- The arguments `connect` passes to `connect_ssh` (lib.rs line 1365). -/
def connect_args (server : ServerConnection) : ConnectSshArgs :=
  ⟨server.host, server.port, server.user, server.auth, some server.id⟩

/-- The authentication call `connect_ssh` issues (lib.rs lines 895-1037),
abstracted to which method is used and which secret material it carries:
`passwordAuth` is `session.authenticate_password(user, password)` and
`publickeyAuth` is `decode_secret_key` + `session.authenticate_publickey`
on the given key material. -/
inductive AuthAttempt where
  | passwordAuth (user password : String)
  | publickeyAuth (user keyData : String)
deriving DecidableEq, Repr

/-- The credential-resolution step of `connect_ssh` (lib.rs lines 895-1037):
a `SecretRef` is resolved through `get_secret` and dispatched on its kind;
the legacy `Password`/`Key` variants are used directly, inline. -/
def connect_ssh_auth_plan (vault : Vault) (user : String) (auth : AuthMethod) :
    Except String AuthAttempt :=
  match auth with
  | AuthMethod.SecretRef secret_id kind =>
    match get_secret vault secret_id with
    | Except.error e => Except.error e
    | Except.ok secret =>
      match kind with
      | SecretKind.Password => Except.ok (AuthAttempt.passwordAuth user secret)
      | SecretKind.PrivateKey => Except.ok (AuthAttempt.publickeyAuth user secret)
  | AuthMethod.Password password =>
    Except.ok (AuthAttempt.passwordAuth user password)
  | AuthMethod.Key private_key =>
    Except.ok (AuthAttempt.publickeyAuth user private_key)

/-- The migration loop of `load_servers` (lib.rs lines 1257-1264): servers
whose auth is already `SecretRef` are skipped, every other server is passed
through `migrate_server_auth`, threading the vault. -/
def load_servers_migrate (vault : Vault) (servers : List ServerConnection) :
    Vault × List ServerConnection :=
  servers.foldl
    (fun acc s =>
      match s.auth with
      | AuthMethod.SecretRef _ _ => (acc.1, acc.2 ++ [s])
      | _ =>
        let vs := migrate_server_auth acc.1 s
        (vs.1, acc.2 ++ [vs.2]))
    (vault, [])

/-- The `sessions : HashMap<String, SshSession>` registry of `AppState`, with
each live `SshSession` identified by a `Nat` tag. -/
abbrev SessionMap := List (String × Nat)

/-- The session-registration step of `connect` (lib.rs lines 1369-1372):
`sessions.insert(server.id.clone(), session)`, performed unconditionally —
`connect` never checks whether a session already exists for the id. -/
def connect_register_session (sessions : SessionMap) (server_id : String)
    (session : Nat) : SessionMap :=
  mapInsert sessions server_id session

/-- The part of a `PtyShell` registry entry relevant here: which server the
shell belongs to (lib.rs `PtyShell.server_id`). -/
structure ShellEntry where
  server_id : String
deriving DecidableEq, Repr

/-- The `shells : HashMap<String, PtyShell>` registry of `AppState`. -/
abbrev ShellMap := List (String × ShellEntry)

/-- The shell sweep of `disconnect` (lib.rs lines 1401-1419): every shell
entry whose `server_id` matches is removed from the Shell Registry (and a
`Close` command is sent to it, bounded by a 250 ms timeout). -/
def disconnect_shell_sweep (shells : ShellMap) (server_id : String) : ShellMap :=
  shells.filter (fun p => !(p.2.server_id == server_id))

/-- The effect of the spawned shell-actor task (lib.rs lines 1117-1197) on the
Shell Registry when its loop exits: none.  The task body never touches
`state.shells`; entries are removed only by `disconnect`
(lib.rs lines 1410-1414). -/
def shells_map_after_actor_exit (shells : ShellMap) : ShellMap :=
  shells

/-- Lower bound of the valid second byte after leading byte `b`, per
RFC 3629 as enforced by Rust `core::str::from_utf8`:
`0xe0` requires `0xa0..`, `0xf0` requires `0x90..`, otherwise `0x80..`. -/
def utf8SecondLo (b : Nat) : Nat :=
  if b == 0xe0 then 0xa0 else if b == 0xf0 then 0x90 else 0x80

/-- Upper bound of the valid second byte after leading byte `b`:
`0xed` allows `..0x9f` (no surrogates), `0xf4` allows `..0x8f`
(codepoints ≤ U+10FFFF), otherwise `..0xbf`. -/
def utf8SecondHi (b : Nat) : Nat :=
  if b == 0xed then 0x9f else if b == 0xf4 then 0x8f else 0xbf

/-- A UTF-8 continuation byte: `0x80..0xbf`. -/
def utf8Cont (b : Nat) : Bool :=
  0x80 ≤ b && b ≤ 0xbf

/-- `std::str::from_utf8` validation and decoding (RFC 3629: no overlong
forms, no surrogates, codepoints ≤ U+10FFFF), on bytes as `Nat`s below 256:
`none` exactly when Rust's `from_utf8` returns `Err`. -/
def utf8Decode : List Nat → Option (List Char)
  | [] => some []
  | b :: rest =>
    if b < 0x80 then
      (utf8Decode rest).map (fun cs => Char.ofNat b :: cs)
    else if b < 0xc2 then
      none
    else if b < 0xe0 then
      match rest with
      | b1 :: rest1 =>
        if utf8Cont b1 then
          (utf8Decode rest1).map
            (fun cs => Char.ofNat ((b - 0xc0) * 0x40 + (b1 - 0x80)) :: cs)
        else none
      | [] => none
    else if b < 0xf0 then
      match rest with
      | b1 :: b2 :: rest2 =>
        if utf8SecondLo b ≤ b1 && b1 ≤ utf8SecondHi b && utf8Cont b2 then
          (utf8Decode rest2).map
            (fun cs =>
              Char.ofNat ((b - 0xe0) * 0x1000 + (b1 - 0x80) * 0x40 + (b2 - 0x80)) :: cs)
        else none
      | _ => none
    else if b < 0xf5 then
      match rest with
      | b1 :: b2 :: b3 :: rest3 =>
        if utf8SecondLo b ≤ b1 && b1 ≤ utf8SecondHi b && utf8Cont b2 && utf8Cont b3 then
          (utf8Decode rest3).map
            (fun cs =>
              Char.ofNat ((b - 0xf0) * 0x40000 + (b1 - 0x80) * 0x1000 +
                          (b2 - 0x80) * 0x40 + (b3 - 0x80)) :: cs)
        else none
      | _ => none
    else none

/-- `std::str::from_utf8(data)` as used in the shell actor's data branch
(lib.rs line 1129), returning the decoded string on success. -/
def rust_from_utf8 (bytes : List Nat) : Option String :=
  (utf8Decode bytes).map (fun cs => String.mk cs)

/-- `ShellCommand` from lib.rs. -/
inductive ShellCommand where
  | SendInput (input : String)
  | Resize (width height : Nat)
  | Close
deriving DecidableEq, Repr

/-- One arm of the `tokio::select!` in the shell actor loop (lib.rs lines
1119-1189), together with the outcome of the channel I/O the arm performs:
* `chanEof`: `channel.wait()` returned `None`;
* `chanData bytes`: a `ChannelMsg::Data` message;
* `chanExit code`: a `ChannelMsg::ExitStatus` message;
* `chanOther`: any other `ChannelMsg` (ignored);
* `cmdInput input writeResult`: a `SendInput` command, with the outcome of
  `channel.data(...)`;
* `cmdResize w h resizeResult`: a `Resize` command, with the outcome of
  `channel.window_change(...)`;
* `cmdClose`: a `Close` command;
* `cmdDropped`: `cmd_rx.recv()` returned `None` (all senders dropped). -/
inductive ActorEvent where
  | chanEof
  | chanData (bytes : List Nat)
  | chanExit (code : Nat)
  | chanOther
  | cmdInput (input : String) (writeResult : Except String Unit)
  | cmdResize (w h : Nat) (resizeResult : Except String Unit)
  | cmdClose
  | cmdDropped

/-- A signal emitted by the shell actor task, or a Shell Registry removal
(which the task body in fact never performs). -/
inductive Emitted where
  | terminalOutput (t : TerminalOutput)
  | connState (e : ConnectionStateEvent)
  | shellsRemove (shell_id : String)
deriving DecidableEq, Repr

/-- One iteration of the shell actor loop (lib.rs lines 1118-1190): the
signals emitted during the iteration and whether the loop `break`s.
Mirrors the source arm by arm: EOF breaks silently; `Data` emits a
`terminal-output` signal only when the bytes are valid UTF-8 and never
breaks; `ExitStatus` emits the synthetic close message and breaks; other
channel messages are ignored; a failed `SendInput` write is surfaced as a
`terminal-output` signal, a successful one emits nothing; `Resize` failures
are only logged; `Close` and a dropped command channel close the channel
and break. -/
def shell_actor_step (shellId : String) : ActorEvent → List Emitted × Bool
  | ActorEvent.chanEof => ([], true)
  | ActorEvent.chanData bytes =>
    match rust_from_utf8 bytes with
    | some s => ([Emitted.terminalOutput ⟨shellId, s⟩], false)
    | none => ([], false)
  | ActorEvent.chanExit code =>
    ([Emitted.terminalOutput
        ⟨shellId, "\r\n\r\nConnection closed (exit code: " ++ toString code ++ ")\r\n"⟩],
     true)
  | ActorEvent.chanOther => ([], false)
  | ActorEvent.cmdInput _ (Except.ok _) => ([], false)
  | ActorEvent.cmdInput _ (Except.error e) =>
    ([Emitted.terminalOutput ⟨shellId, "\r\nFailed to send input: " ++ e ++ "\r\n"⟩],
     false)
  | ActorEvent.cmdResize _ _ _ => ([], false)
  | ActorEvent.cmdClose => ([], true)
  | ActorEvent.cmdDropped => ([], true)

/-- Whether an iteration of the loop on this event `break`s. -/
def shell_actor_stops (shellId : String) (e : ActorEvent) : Bool :=
  (shell_actor_step shellId e).2

/-- The trace of signals the spawned shell-actor task (lib.rs lines
1117-1197) emits while consuming the given sequence of select outcomes.
After the loop `break`s — and only then — the task emits one final
`connection-state` signal `Disconnected` scoped to `(server_id, shell_id)`
(lib.rs lines 1191-1196).  If the events run out without a `break`, the task
is still suspended in `select!` and the trace is the partial trace so far. -/
def shell_actor_loop (serverId shellId : String) : List ActorEvent → List Emitted
  | [] => []
  | e :: rest =>
    let p := shell_actor_step shellId e
    if p.2 then
      p.1 ++ [Emitted.connState ⟨some serverId, some shellId, ConnectionState.Disconnected⟩]
    else
      p.1 ++ shell_actor_loop serverId shellId rest

/-- C1: for every `(host, port)` with a stored `KnownHost` entry, if the
presented key's fingerprint or key_type differs from the stored values,
`check_server_key` emits a `host-key-mismatch` signal carrying both the
presented and the stored fingerprint, returns trust denied, and neither
registers a pending prompt nor emits a `host-key-prompt` signal. -/
theorem c1_stored_mismatch_denies_and_signals
    (host : String) (port freshChan : Nat)
    (key_type fingerprint public_key_base64 : String)
    (hosts : List KnownHost) (pm : PendingMap) (known : KnownHost)
    (hfind : hosts.find? (fun entry => entry.host == host && entry.port == port)
      = some known)
    (hdiff : ¬(known.fingerprint = fingerprint ∧ known.key_type = key_type)) :
    check_server_key_phase1 host port key_type fingerprint public_key_base64
        (Except.ok ()) (Except.ok hosts) pm freshChan =
      CheckPhase1Result.denyMismatch
        ⟨host, port, key_type, fingerprint, known.fingerprint⟩
    ∧ phase1ReturnsTrust (CheckPhase1Result.denyMismatch
        ⟨host, port, key_type, fingerprint, known.fingerprint⟩) = some false
    ∧ phase1Prompt (CheckPhase1Result.denyMismatch
        ⟨host, port, key_type, fingerprint, known.fingerprint⟩) = none
    ∧ phase1PendingAfter pm (CheckPhase1Result.denyMismatch
        ⟨host, port, key_type, fingerprint, known.fingerprint⟩) = pm := by
  have hcond : (known.fingerprint == fingerprint && known.key_type == key_type)
      = false := by
    cases hb : (known.fingerprint == fingerprint && known.key_type == key_type) with
    | false => rfl
    | true =>
      rw [Bool.and_eq_true, beq_iff_eq, beq_iff_eq] at hb
      exact absurd hb hdiff
  refine ⟨?_, rfl, rfl, rfl⟩
  simp [check_server_key_phase1, hfind, hcond]

/-- C1 witness: a host stored with fingerprint "AA:BB" now presenting "CC:DD"
is denied with a mismatch signal carrying both fingerprints. -/
theorem c1_stored_mismatch_witness :
    (([⟨"h", 22, "ssh-ed25519", "AA:BB", "pk", 5⟩] : List KnownHost).find?
        (fun entry => entry.host == "h" && entry.port == 22)
      = some ⟨"h", 22, "ssh-ed25519", "AA:BB", "pk", 5⟩)
    ∧ ¬((⟨"h", 22, "ssh-ed25519", "AA:BB", "pk", 5⟩ : KnownHost).fingerprint = "CC:DD"
        ∧ (⟨"h", 22, "ssh-ed25519", "AA:BB", "pk", 5⟩ : KnownHost).key_type = "ssh-ed25519")
    ∧ check_server_key_phase1 "h" 22 "ssh-ed25519" "CC:DD" "pk2"
        (Except.ok ()) (Except.ok [⟨"h", 22, "ssh-ed25519", "AA:BB", "pk", 5⟩]) [] 0 =
      CheckPhase1Result.denyMismatch ⟨"h", 22, "ssh-ed25519", "CC:DD", "AA:BB"⟩ :=
  ⟨by decide, by decide,
   (c1_stored_mismatch_denies_and_signals "h" 22 0 "ssh-ed25519" "CC:DD" "pk2"
      [⟨"h", 22, "ssh-ed25519", "AA:BB", "pk", 5⟩] []
      ⟨"h", 22, "ssh-ed25519", "AA:BB", "pk", 5⟩ (by decide) (by decide)).1⟩

/-- C8: when `get_app_dir` or `load_known_hosts` fails, `check_server_key`
emits a `ConnectionState.Error` signal carrying the failure message, returns
trust denied (fail-closed), and emits no `host-key-prompt`. -/
theorem c8_store_read_failure_fails_closed
    (host : String) (port freshChan : Nat)
    (key_type fingerprint public_key_base64 err : String)
    (known_hosts : Except String (List KnownHost)) (pm : PendingMap) :
    check_server_key_phase1 host port key_type fingerprint public_key_base64
        (Except.error err) known_hosts pm freshChan
      = CheckPhase1Result.denyError err
    ∧ check_server_key_phase1 host port key_type fingerprint public_key_base64
        (Except.ok ()) (Except.error err) pm freshChan
      = CheckPhase1Result.denyError err
    ∧ phase1ReturnsTrust (CheckPhase1Result.denyError err) = some false
    ∧ phase1ErrorEvent (CheckPhase1Result.denyError err) = some err
    ∧ phase1Prompt (CheckPhase1Result.denyError err) = none :=
  ⟨rfl, rfl, rfl, rfl, rfl⟩

/-- C9: for an accepted prompt, the `KnownHost` persisted by `trust_host_key`
carries exactly the `key_type`/`fingerprint`/`public_key_base64` captured in
the pending prompt at handshake time (the same values the `host-key-prompt`
signal carried), any prior entry for that `(host, port)` is removed, and
`added_at` is the fresh timestamp. -/
theorem c9_trusted_entry_matches_prompt
    (host : String) (port freshChan now : Nat)
    (key_type fingerprint public_key_base64 : String)
    (hosts0 hosts1 : List KnownHost) (pm : PendingMap)
    (hfind : hosts0.find? (fun entry => entry.host == host && entry.port == port)
      = none) :
    check_server_key_phase1 host port key_type fingerprint public_key_base64
        (Except.ok ()) (Except.ok hosts0) pm freshChan =
      CheckPhase1Result.waiting
        ⟨host, port, key_type, fingerprint, public_key_base64⟩
        (mapInsert pm (hostKeyId host port)
          ⟨freshChan, key_type, fingerprint, public_key_base64⟩)
    ∧ trust_host_key
        (mapInsert pm (hostKeyId host port)
          ⟨freshChan, key_type, fingerprint, public_key_base64⟩)
        hosts1 host port now =
      Except.ok
        ⟨mapRemove
           (mapInsert pm (hostKeyId host port)
             ⟨freshChan, key_type, fingerprint, public_key_base64⟩)
           (hostKeyId host port),
         hosts1.filter (fun h => !(h.host == host && h.port == port)) ++
           [⟨host, port, key_type, fingerprint, public_key_base64, now⟩],
         some (freshChan, true)⟩
    ∧ ∀ h ∈ hosts1.filter (fun h => !(h.host == host && h.port == port)),
        ¬(h.host = host ∧ h.port = port) := by
  refine ⟨by simp [check_server_key_phase1, hfind], ?_, ?_⟩
  · simp [trust_host_key, mapInsert, List.lookup]
  · intro h hmem
    rw [List.mem_filter] at hmem
    intro hcontra
    rw [Bool.not_eq_eq_eq_not, Bool.not_true, Bool.and_eq_false_iff] at hmem
    rcases hmem.2 with hb | hb <;> rw [beq_eq_false_iff_ne] at hb
    · exact hb hcontra.1
    · exact hb hcontra.2

/-- C9 witness: trusting "h":22 after a first-sight prompt replaces the stale
stored entry and persists exactly the prompt's key data at time 1000. -/
theorem c9_trusted_entry_witness :
    (([] : List KnownHost).find?
        (fun entry => entry.host == "h" && entry.port == 22) = none)
    ∧ trust_host_key
        (mapInsert [] (hostKeyId "h" 22) ⟨3, "ssh-ed25519", "FP", "PKB"⟩)
        [⟨"h", 22, "old-kt", "OLD", "opk", 1⟩] "h" 22 1000 =
      Except.ok
        ⟨mapRemove (mapInsert [] (hostKeyId "h" 22) ⟨3, "ssh-ed25519", "FP", "PKB"⟩)
           (hostKeyId "h" 22),
         ([⟨"h", 22, "old-kt", "OLD", "opk", 1⟩] : List KnownHost).filter
             (fun h => !(h.host == "h" && h.port == 22)) ++
           [⟨"h", 22, "ssh-ed25519", "FP", "PKB", 1000⟩],
         some (3, true)⟩ :=
  ⟨by decide,
   (c9_trusted_entry_matches_prompt "h" 22 3 1000 "ssh-ed25519" "FP" "PKB"
      [] [⟨"h", 22, "old-kt", "OLD", "opk", 1⟩] [] (by decide)).2.1⟩

/-- C10: with no pending prompt for `(host, port)`, `trust_host_key` fails
with "No pending host key prompt" before touching the known-hosts store,
while `reject_host_key` on the same input returns `Ok` and changes nothing. -/
theorem c10_stale_decision_cannot_trust
    (pm : PendingMap) (hosts : List KnownHost) (host : String) (port now : Nat)
    (h : pm.lookup (hostKeyId host port) = none) :
    trust_host_key pm hosts host port now
      = Except.error "No pending host key prompt"
    ∧ reject_host_key pm host port = Except.ok (pm, none) := by
  constructor
  · simp [trust_host_key, h]
  · simp [reject_host_key, h]

/-- C10 witness: with an empty pending map, trusting "h":22 fails and
rejecting it succeeds without effect. -/
theorem c10_stale_decision_witness :
    (([] : PendingMap).lookup (hostKeyId "h" 22) = none)
    ∧ trust_host_key [] [] "h" 22 1000
      = Except.error "No pending host key prompt"
    ∧ reject_host_key [] "h" 22 = Except.ok ([], none) :=
  ⟨by decide,
   (c10_stale_decision_cannot_trust [] [] "h" 22 1000 (by decide)).1,
   (c10_stale_decision_cannot_trust [] [] "h" 22 1000 (by decide)).2⟩

/-- C2 counterexample: with a prompt for "h:22" outstanding (pending entry
backed by oneshot channel 0), a second handshake for the same endpoint does
not fail fast and does not join channel 0: it creates a second independent
prompt — it emits a fresh `host-key-prompt` signal and installs a fresh
pending entry backed by the new channel 1, displacing the first. -/
theorem c2_second_prompt_counterexample :
    (([("h:22", (⟨0, "t0", "f0", "p0"⟩ : PendingHostKey))] : PendingMap).lookup "h:22"
      = some ⟨0, "t0", "f0", "p0"⟩)
    ∧ check_server_key_phase1 "h" 22 "t1" "f1" "p1" (Except.ok ()) (Except.ok [])
        [("h:22", ⟨0, "t0", "f0", "p0"⟩)] 1 =
      CheckPhase1Result.waiting ⟨"h", 22, "t1", "f1", "p1"⟩
        [("h:22", ⟨1, "t1", "f1", "p1"⟩)]
    ∧ phase1Prompt (CheckPhase1Result.waiting ⟨"h", 22, "t1", "f1", "p1"⟩
        [("h:22", ⟨1, "t1", "f1", "p1"⟩)]) = some ⟨"h", 22, "t1", "f1", "p1"⟩
    ∧ ((⟨1, "t1", "f1", "p1"⟩ : PendingHostKey).sender
        ≠ (⟨0, "t0", "f0", "p0"⟩ : PendingHostKey).sender) := by
  refine ⟨by decide, by decide, by decide, by decide⟩

/-- C2 amended: the pending-host-keys map holds at most one entry per
`host_key_id` (HashMap semantics), but a second connection attempt to the
same endpoint while a prompt is outstanding neither fails fast nor joins the
existing decision channel: it installs a fresh pending entry backed by its
own new channel, replacing the outstanding one, whose dropped channel then
resolves the first attempt to trust denied. -/
theorem c2_amended_second_attempt_replaces
    (host : String) (port freshChan : Nat)
    (key_type fingerprint public_key_base64 : String)
    (hosts : List KnownHost) (pm : PendingMap) (old : PendingHostKey)
    (hpending : pm.lookup (hostKeyId host port) = some old)
    (hfind : hosts.find? (fun entry => entry.host == host && entry.port == port)
      = none) :
    check_server_key_phase1 host port key_type fingerprint public_key_base64
        (Except.ok ()) (Except.ok hosts) pm freshChan =
      CheckPhase1Result.waiting
        ⟨host, port, key_type, fingerprint, public_key_base64⟩
        (mapInsert pm (hostKeyId host port)
          ⟨freshChan, key_type, fingerprint, public_key_base64⟩)
    ∧ (mapInsert pm (hostKeyId host port)
        ⟨freshChan, key_type, fingerprint, public_key_base64⟩).lookup
          (hostKeyId host port)
      = some ⟨freshChan, key_type, fingerprint, public_key_base64⟩
    ∧ ((mapInsert pm (hostKeyId host port)
        ⟨freshChan, key_type, fingerprint, public_key_base64⟩).filter
          (fun p => p.1 == hostKeyId host port)).length = 1
    ∧ (check_server_key_phase2 host port none
        (mapInsert pm (hostKeyId host port)
          ⟨freshChan, key_type, fingerprint, public_key_base64⟩)).1 = false := by
  refine ⟨by simp [check_server_key_phase1, hfind], ?_, ?_, rfl⟩
  · simp [mapInsert, List.lookup]
  · simp only [mapInsert, List.filter_cons, beq_self_eq_true, if_pos,
      List.filter_filter]
    have hpred : ∀ p : String × PendingHostKey,
        ((p.1 == hostKeyId host port) && !(p.1 == hostKeyId host port)) = false := by
      intro p
      cases p.1 == hostKeyId host port <;> rfl
    simp [hpred]

/-- C2 witness: instantiating the amended statement at the counterexample's
endpoint, with a prompt on channel 0 outstanding and channel 1 fresh. -/
theorem c2_amended_witness :
    (([("h:22", (⟨0, "t0", "f0", "p0"⟩ : PendingHostKey))] : PendingMap).lookup
        (hostKeyId "h" 22) = some ⟨0, "t0", "f0", "p0"⟩)
    ∧ (([] : List KnownHost).find?
        (fun entry => entry.host == "h" && entry.port == 22) = none)
    ∧ (mapInsert ([("h:22", (⟨0, "t0", "f0", "p0"⟩ : PendingHostKey))] : PendingMap)
        (hostKeyId "h" 22) (⟨1, "t1", "f1", "p1"⟩ : PendingHostKey)).lookup
          (hostKeyId "h" 22)
      = some ⟨1, "t1", "f1", "p1"⟩
    ∧ ((mapInsert ([("h:22", (⟨0, "t0", "f0", "p0"⟩ : PendingHostKey))] : PendingMap)
        (hostKeyId "h" 22) (⟨1, "t1", "f1", "p1"⟩ : PendingHostKey)).filter
          (fun p => p.1 == hostKeyId "h" 22)).length = 1 :=
  ⟨by decide, by decide,
   (c2_amended_second_attempt_replaces "h" 22 1 "t1" "f1" "p1" []
      ([("h:22", (⟨0, "t0", "f0", "p0"⟩ : PendingHostKey))] : PendingMap)
      ⟨0, "t0", "f0", "p0"⟩ (by decide) (by decide)).2.1,
   (c2_amended_second_attempt_replaces "h" 22 1 "t1" "f1" "p1" []
      ([("h:22", (⟨0, "t0", "f0", "p0"⟩ : PendingHostKey))] : PendingMap)
      ⟨0, "t0", "f0", "p0"⟩ (by decide) (by decide)).2.2.1⟩

/-- C3: `migrate_server_auth` is a no-op on `SecretRef`; a legacy inline
secret is stored in the vault under the id deterministic in the server id and
auth kind and the auth is rewritten to the matching `SecretRef`; running the
migration twice equals running it once. -/
theorem c3_migrate_deterministic_and_idempotent
    (vault : Vault) (server : ServerConnection) :
    (∀ sid k, server.auth = AuthMethod.SecretRef sid k →
      migrate_server_auth vault server = (vault, server))
    ∧ (∀ pw, server.auth = AuthMethod.Password pw →
      (migrate_server_auth vault server).2 =
        { server with auth := AuthMethod.SecretRef ("server:" ++ server.id ++ ":password") SecretKind.Password }
      ∧ ((migrate_server_auth vault server).1).lookup
          ("server:" ++ server.id ++ ":password") = some pw)
    ∧ (∀ key, server.auth = AuthMethod.Key key →
      (migrate_server_auth vault server).2 =
        { server with auth := AuthMethod.SecretRef ("server:" ++ server.id ++ ":private_key") SecretKind.PrivateKey }
      ∧ ((migrate_server_auth vault server).1).lookup
          ("server:" ++ server.id ++ ":private_key") = some key)
    ∧ migrate_server_auth (migrate_server_auth vault server).1
        (migrate_server_auth vault server).2 = migrate_server_auth vault server := by
  refine ⟨?_, ?_, ?_, ?_⟩
  · intro sid k h
    simp [migrate_server_auth, h]
  · intro pw h
    refine ⟨by simp [migrate_server_auth, h], ?_⟩
    simp [migrate_server_auth, h, put_secret, mapInsert, List.lookup]
  · intro key h
    refine ⟨by simp [migrate_server_auth, h], ?_⟩
    simp [migrate_server_auth, h, put_secret, mapInsert, List.lookup]
  · cases h : server.auth <;> simp [migrate_server_auth, h]

/-- C3 witness: migrating a server with an inline password stores the
password under `server:id1:password`, rewrites the auth, and a second
migration is a no-op. -/
theorem c3_migrate_witness :
    ((⟨"id1", none, "host", 22, "u", AuthMethod.Password "pw"⟩ : ServerConnection).auth
      = AuthMethod.Password "pw")
    ∧ (migrate_server_auth []
        ⟨"id1", none, "host", 22, "u", AuthMethod.Password "pw"⟩).2 =
      (⟨"id1", none, "host", 22, "u",
        AuthMethod.SecretRef ("server:" ++ "id1" ++ ":password")
          SecretKind.Password⟩ : ServerConnection)
    ∧ ((migrate_server_auth []
        ⟨"id1", none, "host", 22, "u", AuthMethod.Password "pw"⟩).1).lookup
        ("server:" ++ "id1" ++ ":password") = some "pw"
    ∧ migrate_server_auth
        (migrate_server_auth []
          ⟨"id1", none, "host", 22, "u", AuthMethod.Password "pw"⟩).1
        (migrate_server_auth []
          ⟨"id1", none, "host", 22, "u", AuthMethod.Password "pw"⟩).2 =
      migrate_server_auth [] ⟨"id1", none, "host", 22, "u", AuthMethod.Password "pw"⟩ :=
  ⟨rfl,
   ((c3_migrate_deterministic_and_idempotent []
      ⟨"id1", none, "host", 22, "u", AuthMethod.Password "pw"⟩).2.1 "pw" rfl).1,
   ((c3_migrate_deterministic_and_idempotent []
      ⟨"id1", none, "host", 22, "u", AuthMethod.Password "pw"⟩).2.1 "pw" rfl).2,
   (c3_migrate_deterministic_and_idempotent []
      ⟨"id1", none, "host", 22, "u", AuthMethod.Password "pw"⟩).2.2.2⟩

/-- C4 counterexample: `connect` on a server whose auth is the legacy inline
`Password "pw"` forwards that auth to `connect_ssh` unchanged — no migration
to `SecretRef` runs first — and `connect_ssh` authenticates with the inline
plaintext password itself. -/
theorem c4_no_migration_on_connect_counterexample :
    connect_args ⟨"id1", none, "h", 22, "u", AuthMethod.Password "pw"⟩ =
      ⟨"h", 22, "u", AuthMethod.Password "pw", some "id1"⟩
    ∧ (connect_args ⟨"id1", none, "h", 22, "u",
        AuthMethod.Password "pw"⟩).auth.isSecretRef = false
    ∧ connect_ssh_auth_plan [] "u"
        (connect_args ⟨"id1", none, "h", 22, "u", AuthMethod.Password "pw"⟩).auth =
      Except.ok (AuthAttempt.passwordAuth "u" "pw") := by
  refine ⟨by decide, by decide, by decide⟩

/-- C4 amended: the connect path performs no migration — `connect` forwards a
legacy inline auth to `connect_ssh` as is, and `connect_ssh` authenticates
directly with the inline secret; migration to `SecretRef` happens only where
`migrate_server_auth` is called (`add_server`, `update_server` and the
`load_servers` read path), not before a connect attempt. -/
theorem c4_amended_connect_uses_inline_secret
    (vault : Vault) (server : ServerConnection) (pw key : String) :
    (server.auth = AuthMethod.Password pw →
      (connect_args server).auth = AuthMethod.Password pw
      ∧ connect_ssh_auth_plan vault server.user (connect_args server).auth =
          Except.ok (AuthAttempt.passwordAuth server.user pw)
      ∧ (migrate_server_auth vault server).2.auth =
          AuthMethod.SecretRef ("server:" ++ server.id ++ ":password")
            SecretKind.Password)
    ∧ (server.auth = AuthMethod.Key key →
      (connect_args server).auth = AuthMethod.Key key
      ∧ connect_ssh_auth_plan vault server.user (connect_args server).auth =
          Except.ok (AuthAttempt.publickeyAuth server.user key)
      ∧ (migrate_server_auth vault server).2.auth =
          AuthMethod.SecretRef ("server:" ++ server.id ++ ":private_key")
            SecretKind.PrivateKey) := by
  constructor
  · intro h
    refine ⟨by simp [connect_args, h], ?_, ?_⟩
    · simp [connect_args, connect_ssh_auth_plan, h]
    · simp [migrate_server_auth, h]
  · intro h
    refine ⟨by simp [connect_args, h], ?_, ?_⟩
    · simp [connect_args, connect_ssh_auth_plan, h]
    · simp [migrate_server_auth, h]

/-- C4 witness: the amended statement at a concrete password server. -/
theorem c4_amended_witness :
    ((⟨"id1", none, "h", 22, "u", AuthMethod.Password "pw"⟩ : ServerConnection).auth
      = AuthMethod.Password "pw")
    ∧ (connect_args ⟨"id1", none, "h", 22, "u", AuthMethod.Password "pw"⟩).auth
      = AuthMethod.Password "pw"
    ∧ connect_ssh_auth_plan [] "u"
        (connect_args ⟨"id1", none, "h", 22, "u", AuthMethod.Password "pw"⟩).auth =
      Except.ok (AuthAttempt.passwordAuth "u" "pw")
    ∧ (migrate_server_auth []
        ⟨"id1", none, "h", 22, "u", AuthMethod.Password "pw"⟩).2.auth =
      AuthMethod.SecretRef ("server:" ++ "id1" ++ ":password") SecretKind.Password :=
  ⟨rfl,
   ((c4_amended_connect_uses_inline_secret []
      ⟨"id1", none, "h", 22, "u", AuthMethod.Password "pw"⟩ "pw" "k").1 rfl).1,
   ((c4_amended_connect_uses_inline_secret []
      ⟨"id1", none, "h", 22, "u", AuthMethod.Password "pw"⟩ "pw" "k").1 rfl).2.1,
   ((c4_amended_connect_uses_inline_secret []
      ⟨"id1", none, "h", 22, "u", AuthMethod.Password "pw"⟩ "pw" "k").1 rfl).2.2⟩

/-- C5 counterexample: with a live session (tag 0) registered for server
"s1", `connect` for the same id registers its new session (tag 1) by a plain
`HashMap::insert`, which silently replaces the existing entry: the old
session is no longer in the registry. -/
theorem c5_silent_replacement_counterexample :
    connect_register_session [("s1", 0)] "s1" 1 = [("s1", 1)]
    ∧ List.lookup "s1" (connect_register_session [("s1", 0)] "s1" 1) = some 1
    ∧ ("s1", 0) ∉ connect_register_session [("s1", 0)] "s1" 1 := by
  refine ⟨by decide, by decide, by decide⟩

/-- C5 amended: `connect` performs no existing-session check: it
unconditionally inserts the new session under the server id, so any existing
entry for that id is silently replaced (the in-flight session is orphaned). -/
theorem c5_amended_connect_replaces_session
    (sessions : SessionMap) (server_id : String) (session old : Nat) :
    List.lookup server_id (connect_register_session sessions server_id session)
      = some session
    ∧ ((server_id, old) ∈ connect_register_session sessions server_id session →
        old = session) := by
  constructor
  · simp [connect_register_session, mapInsert, List.lookup]
  · intro hmem
    simp only [connect_register_session, mapInsert, List.mem_cons,
      List.mem_filter] at hmem
    rcases hmem with h | h
    · exact (Prod.mk.injEq _ _ _ _ ▸ h).2
    · exfalso
      have := h.2
      simp at this
  

/-- C5 witness: the amended statement at a registry holding session 0 for
"s1" and a new session 1. -/
theorem c5_amended_witness :
    List.lookup "s1" (connect_register_session [("s1", 0)] "s1" 1) = some 1
    ∧ (("s1", 1) ∈ connect_register_session [("s1", 0)] "s1" 1 → 1 = 1) :=
  ⟨(c5_amended_connect_replaces_session [("s1", 0)] "s1" 1 0).1,
   (c5_amended_connect_replaces_session [("s1", 0)] "s1" 1 1).2⟩

/-- C6 counterexample: an actor terminating on an exit-status message emits
the synthetic close output and the `Disconnected` state event scoped to
`(server_id, shell_id)`, but performs no Shell Registry removal: after the
task exits, the registry — which the task body never touches — still holds
the shell's entry. -/
theorem c6_no_deregistration_counterexample :
    shell_actor_loop "s1" "sh1" [ActorEvent.chanExit 0] =
      [Emitted.terminalOutput ⟨"sh1", "\r\n\r\nConnection closed (exit code: 0)\r\n"⟩,
       Emitted.connState ⟨some "s1", some "sh1", ConnectionState.Disconnected⟩]
    ∧ (shell_actor_loop "s1" "sh1" [ActorEvent.chanExit 0]).all
        (fun e => match e with
          | Emitted.shellsRemove _ => false
          | _ => true) = true
    ∧ shells_map_after_actor_exit [("sh1", ⟨"s1"⟩)] = [("sh1", ⟨"s1"⟩)]
    ∧ List.lookup "sh1" (shells_map_after_actor_exit [("sh1", ⟨"s1"⟩)])
      = some ⟨"s1"⟩ := by
  refine ⟨by decide, by decide, by decide, by decide⟩

/-- C6 amended: whenever the shell actor's event loop terminates, for any
reason, the last signal of its trace is a `Disconnected` connection-state
event scoped to `(server_id, shell_id)`; the actor does not remove its entry
from the Shell Registry — the task body leaves the registry untouched, and
entries are removed only by the `disconnect` command's sweep, which removes
every shell entry belonging to the server. -/
theorem c6_amended_disconnected_but_entry_kept
    (serverId shellId : String) (events : List ActorEvent)
    (h : events.any (shell_actor_stops shellId) = true) :
    (shell_actor_loop serverId shellId events).getLast? =
      some (Emitted.connState
        ⟨some serverId, some shellId, ConnectionState.Disconnected⟩)
    ∧ (∀ shells : ShellMap, shells_map_after_actor_exit shells = shells)
    ∧ (∀ shells : ShellMap,
        (disconnect_shell_sweep shells serverId).all
          (fun p => !(p.2.server_id == serverId)) = true) := by
  refine ⟨?_, fun _ => rfl, ?_⟩
  · induction events with
    | nil => simp at h
    | cons e rest ih =>
      simp only [List.any_cons, Bool.or_eq_true] at h
      simp only [shell_actor_loop]
      cases hs : (shell_actor_step shellId e).2 with
      | true => simp [hs]
      | false =>
        have hrest : rest.any (shell_actor_stops shellId) = true := by
          rcases h with h | h
          · rw [shell_actor_stops, hs] at h
            cases h
          · exact h
        simp [hs, ih hrest]
  · intro shells
    rw [List.all_eq_true]
    intro p hp
    rw [disconnect_shell_sweep, List.mem_filter] at hp
    exact hp.2

/-- C6 witness: the amended statement at an actor stopped by peer EOF. -/
theorem c6_amended_witness :
    (([ActorEvent.chanEof].any (shell_actor_stops "sh1")) = true)
    ∧ (shell_actor_loop "s1" "sh1" [ActorEvent.chanEof]).getLast? =
      some (Emitted.connState ⟨some "s1", some "sh1", ConnectionState.Disconnected⟩)
    ∧ (disconnect_shell_sweep [("sh1", ⟨"s1"⟩)] "s1").all
        (fun p => !(p.2.server_id == "s1")) = true :=
  ⟨by decide,
   (c6_amended_disconnected_but_entry_kept "s1" "sh1" [ActorEvent.chanEof]
      (by decide)).1,
   (c6_amended_disconnected_but_entry_kept "s1" "sh1" [ActorEvent.chanEof]
      (by decide)).2.2 [("sh1", ⟨"s1"⟩)]⟩

/-- C7: an inbound data message whose bytes are not valid UTF-8 does not
crash the actor: the iteration emits no `terminal-output` signal at all (the
bytes are dropped from display) and the loop does not `break`. -/
theorem c7_invalid_utf8_dropped_loop_continues
    (shellId : String) (bytes : List Nat)
    (h : rust_from_utf8 bytes = none) :
    shell_actor_step shellId (ActorEvent.chanData bytes) = ([], false) := by
  simp [shell_actor_step, h]

/-- C7 witness: the byte 0xFF is never valid in UTF-8; the actor drops it
and continues. -/
theorem c7_invalid_utf8_witness :
    rust_from_utf8 [255] = none
    ∧ shell_actor_step "sh1" (ActorEvent.chanData [255]) = ([], false) :=
  ⟨by decide, c7_invalid_utf8_dropped_loop_continues "sh1" [255] (by decide)⟩
